import Mathlib

/-!
# Mali T6xx kbase: core availability policy manager and context attribute tracker

A shallow embedding of

* `drivers/gpu/arm/t6xx/kbase/src/common/mali_kbase_pm_ca.c`
* `drivers/gpu/arm/t6xx/kbase/src/common/mali_kbase_js_ctx_attr.h`

Machine words are natural numbers (`u64` masks) or integers (signed reference counts).
Functions declared outside these two files (the power management collaborators and
the operations of a policy) are parameters gathered in `Env`.  Every call made through
such a parameter and every store to the manager's own fields is appended to a call log
kept next to the device, so that the order of effects can be stated.
-/

namespace KBase

/-! ## Data model -/

/-- Address of a `const kbase_pm_ca_policy` object.  A nullable pointer is an
`Option policy_ptr`, the null pointer being `none`. -/
abbrev policy_ptr := Nat

/-- Modelled from the spec: the typedef `mali_bool` is declared outside the two files;
the flag it types is a truth value stored in an unsigned machine word. -/
abbrev mali_bool := Nat

def MALI_TRUE : mali_bool := 1

def MALI_FALSE : mali_bool := 0

/-- Modelled from the spec: the status type `mali_error` is declared outside the two
files; success is the zero value, every other value reports a failure. -/
abbrev mali_error := Nat

def MALI_ERROR_NONE : mali_error := 0

/-- The fields of `kbase_device` that the two files read or write.
`kbdev->pm.x` is written `pm_x`, and `kbdev->js_data.runpool_irq.ctx_attr_ref_count`
is an array seen as a function of the index. -/
structure kbase_device where
  shader_present_bitmap : Nat
  shader_ready_bitmap : Nat
  shader_transitioning_bitmap : Nat
  pm_debug_core_mask : Nat
  pm_instr_enabled : mali_bool
  pm_ca_current_policy : Option policy_ptr
  js_data_runpool_irq_ctx_attr_ref_count : Nat → Int

/-- The fields of `kbase_context` read by the attribute queries:
`kctx->jctx.sched_info.ctx.ctx_attr_ref_count` and `is_scheduled`. -/
structure kbase_context where
  ctx_attr_ref_count : Nat → Int
  is_scheduled : Bool

/-- Modelled from the spec: the structure `kbase_pm_ca_policy` is declared outside the
two files.  It is an identifier and four operations; `init` may fail and reports a
status; `init` and `term` are function pointers that `kbase_pm_ca_set_policy` tests
against null before calling, hence optional; `get_core_mask` reads the device and
returns a `u64` mask. -/
structure kbase_pm_ca_policy where
  id : Nat
  init : Option (kbase_device → mali_error × kbase_device)
  term : Option (kbase_device → kbase_device)
  get_core_mask : kbase_device → Nat
  update_core_status : kbase_device → Nat → Nat → kbase_device

/-- Everything the file takes from elsewhere: the memory holding the policy objects,
the two policy symbols, the build switch and the power management collaborators. -/
structure Env where
  deref : policy_ptr → kbase_pm_ca_policy
  kbase_pm_ca_fixed_policy_ops : policy_ptr
  kbase_pm_ca_random_policy_ops : policy_ptr
  MALI_CUSTOMER_RELEASE : Nat
  kbase_pm_context_active : kbase_device → kbase_device
  kbase_pm_context_idle : kbase_device → kbase_device
  kbase_pm_update_cores_state_nolock : kbase_device → kbase_device

/-- One entry of the call log. -/
inductive Event where
  | kbase_pm_context_active
  | kbase_pm_context_idle
  | kbase_pm_update_cores_state_nolock
  | policy_init (p : policy_ptr)
  | policy_term (p : policy_ptr)
  | policy_get_core_mask (p : policy_ptr)
  | policy_update_core_status (p : policy_ptr) (cores_ready cores_transitioning : Nat)
  | store_ca_current_policy (v : Option policy_ptr)
  | store_instr_enabled (v : mali_bool)
  deriving DecidableEq

/-- The device together with the call log and the state of the two locks
`kbdev->pm.power_change_lock` (spinlock) and `kbdev->pm.lock` (mutex), as held by the
thread that runs the manager. -/
structure World where
  kbdev : kbase_device
  calls : List Event
  power_change_lock_held : Bool
  pm_lock_held : Bool

/-- Mask inclusion: every bit of `a` is a bit of `b`. -/
def mask_subset (a b : Nat) : Prop := a &&& b = a

instance (a b : Nat) : Decidable (mask_subset a b) :=
  inferInstanceAs (Decidable (a &&& b = a))

/-- The operator `~` of C on a 64-bit unsigned operand. -/
def u64_not (x : Nat) : Nat := 2 ^ 64 - (x % 2 ^ 64 + 1)

/-! ## mali_kbase_pm_ca.c -/

/-- The static table `policy_list`. -/
def policy_list (env : Env) : List policy_ptr :=
  env.kbase_pm_ca_fixed_policy_ops ::
    (if env.MALI_CUSTOMER_RELEASE = 0 then [env.kbase_pm_ca_random_policy_ops] else [])

def POLICY_COUNT (env : Env) : Nat := (policy_list env).length

/-- The function `kbase_pm_ca_get_policy`. -/
def kbase_pm_ca_get_policy (kbdev : kbase_device) : Option policy_ptr :=
  kbdev.pm_ca_current_policy

/-- The function `kbase_pm_ca_get_core_mask`; `lockdep_assert_held` has no effect on
the value and is left out. -/
def kbase_pm_ca_get_core_mask (env : Env) (w : World) : Nat × World :=
  if w.kbdev.pm_instr_enabled = MALI_TRUE then
    (w.kbdev.shader_present_bitmap &&& w.kbdev.pm_debug_core_mask, w)
  else
    match w.kbdev.pm_ca_current_policy with
    | none => (w.kbdev.shader_present_bitmap &&& w.kbdev.pm_debug_core_mask, w)
    | some p =>
      ((env.deref p).get_core_mask w.kbdev &&& w.kbdev.pm_debug_core_mask,
        { w with calls := w.calls ++ [Event.policy_get_core_mask p] })


/-! ### Logging primitives -/

/-- Call of a collaborator function on the device, recorded in the log. -/
def World.call (w : World) (f : kbase_device → kbase_device) (e : Event) : World :=
  { w with kbdev := f w.kbdev, calls := w.calls ++ [e] }

/-- The assignment `kbdev->pm.ca_current_policy = v`, recorded in the log. -/
def World.store_ca_current_policy (w : World) (v : Option policy_ptr) : World :=
  { w with kbdev := { w.kbdev with pm_ca_current_policy := v },
           calls := w.calls ++ [Event.store_ca_current_policy v] }

/-- The assignment `kbdev->pm.instr_enabled = v`, recorded in the log. -/
def World.store_instr_enabled (w : World) (v : mali_bool) : World :=
  { w with kbdev := { w.kbdev with pm_instr_enabled := v },
           calls := w.calls ++ [Event.store_instr_enabled v] }

/-- The call `spin_lock_irqsave(&kbdev->pm.power_change_lock, flags)`. -/
def World.spin_lock_irqsave (w : World) : World := { w with power_change_lock_held := true }

/-- The call `spin_unlock_irqrestore(&kbdev->pm.power_change_lock, flags)`. -/
def World.spin_unlock_irqrestore (w : World) : World :=
  { w with power_change_lock_held := false }

/-- The call `mutex_lock(&kbdev->pm.lock)`. -/
def World.mutex_lock (w : World) : World := { w with pm_lock_held := true }

/-- The call `mutex_unlock(&kbdev->pm.lock)`. -/
def World.mutex_unlock (w : World) : World := { w with pm_lock_held := false }

/-- Run a list of statements in order; `none` is a fault (a failed assertion or a
dereference of a null pointer) and stops the run. -/
def run_steps {σ : Type} : List (σ → Option σ) → σ → Option σ
  | [], s => some s
  | f :: fs, s => (f s).bind (run_steps fs)

/-! ### The manager -/

/-- The function `kbase_pm_ca_init`.  The pointer stored in the slot is read back and
its `init` is called without a null test; whatever `init` returns is dropped and the
function returns `MALI_ERROR_NONE`. -/
def kbase_pm_ca_init (env : Env) (w : World) : Option (mali_error × World) :=
  match (policy_list env)[0]? with
  | none => none
  | some p0 =>
    let w1 := w.store_ca_current_policy (some p0)
    match w1.kbdev.pm_ca_current_policy with
    | none => none
    | some p =>
      match (env.deref p).init with
      | none => none
      | some f => some (MALI_ERROR_NONE, w1.call (fun d => (f d).2) (Event.policy_init p))

/-- The function `kbase_pm_ca_term`: the `term` of the active policy is called without
a null test. -/
def kbase_pm_ca_term (env : Env) (w : World) : Option World :=
  match w.kbdev.pm_ca_current_policy with
  | none => none
  | some p =>
    match (env.deref p).term with
    | none => none
    | some f => some (w.call f (Event.policy_term p))

/-- The function `kbase_pm_ca_list_policies`: the count, and the table when the caller
passed a place to put it (`wants_list`). -/
def kbase_pm_ca_list_policies (env : Env) (wants_list : Bool) :
    Nat × Option (List policy_ptr) :=
  if !wants_list then (POLICY_COUNT env, none)
  else (POLICY_COUNT env, some (policy_list env))

/-- Local state of `kbase_pm_ca_set_policy`: the world and the local `old_policy`. -/
structure set_policy_frame where
  w : World
  old_policy : Option policy_ptr

/-- The body of `kbase_pm_ca_set_policy`, one entry per statement, in source order
(the line of the statement is given on the right). -/
def set_policy_steps (env : Env) (new_policy : Option policy_ptr) :
    List (set_policy_frame → Option set_policy_frame) :=
  [ -- KBASE_DEBUG_ASSERT(new_policy != NULL); KBASE_TRACE_ADD(.., new_policy->id)   86-88
    fun s => match new_policy with
      | none => none
      | some _ => some s,
    -- kbase_pm_context_active(kbdev)                                                92
    fun s => some { s with w := s.w.call env.kbase_pm_context_active
                                  Event.kbase_pm_context_active },
    -- mutex_lock(&kbdev->pm.lock)                                                   94
    fun s => some { s with w := s.w.mutex_lock },
    -- spin_lock_irqsave(&kbdev->pm.power_change_lock, flags)                        97
    fun s => some { s with w := s.w.spin_lock_irqsave },
    -- old_policy = kbdev->pm.ca_current_policy                                      98
    fun s => some { s with old_policy := s.w.kbdev.pm_ca_current_policy },
    -- kbdev->pm.ca_current_policy = NULL                                            99
    fun s => some { s with w := s.w.store_ca_current_policy none },
    -- spin_unlock_irqrestore(&kbdev->pm.power_change_lock, flags)                   100
    fun s => some { s with w := s.w.spin_unlock_irqrestore },
    -- if (old_policy->term) old_policy->term(kbdev)                                 102-103
    fun s => match s.old_policy with
      | none => none
      | some op =>
        match (env.deref op).term with
        | none => some s
        | some f => some { s with w := s.w.call f (Event.policy_term op) },
    -- if (new_policy->init) new_policy->init(kbdev)                                 105-106
    fun s => match new_policy with
      | none => none
      | some np =>
        match (env.deref np).init with
        | none => some s
        | some f => some { s with w := s.w.call (fun d => (f d).2) (Event.policy_init np) },
    -- spin_lock_irqsave(&kbdev->pm.power_change_lock, flags)                        108
    fun s => some { s with w := s.w.spin_lock_irqsave },
    -- kbdev->pm.ca_current_policy = new_policy                                      109
    fun s => some { s with w := s.w.store_ca_current_policy new_policy },
    -- kbase_pm_update_cores_state_nolock(kbdev)                                     114
    fun s => some { s with w := s.w.call env.kbase_pm_update_cores_state_nolock
                                  Event.kbase_pm_update_cores_state_nolock },
    -- kbdev->pm.ca_current_policy->update_core_status(kbdev, ready, transitioning)  116
    fun s => match s.w.kbdev.pm_ca_current_policy with
      | none => none
      | some q =>
        let ready := s.w.kbdev.shader_ready_bitmap
        let transitioning := s.w.kbdev.shader_transitioning_bitmap
        some { s with w := s.w.call
                             (fun d => (env.deref q).update_core_status d ready transitioning)
                             (Event.policy_update_core_status q ready transitioning) },
    -- spin_unlock_irqrestore(&kbdev->pm.power_change_lock, flags)                   118
    fun s => some { s with w := s.w.spin_unlock_irqrestore },
    -- mutex_unlock(&kbdev->pm.lock)                                                 120
    fun s => some { s with w := s.w.mutex_unlock },
    -- kbase_pm_context_idle(kbdev)                                                  123
    fun s => some { s with w := s.w.call env.kbase_pm_context_idle
                                  Event.kbase_pm_context_idle } ]

/-- The state of `kbase_pm_ca_set_policy` after its first `k` statements. -/
def set_policy_after (env : Env) (new_policy : Option policy_ptr) (k : Nat) (w : World) :
    Option set_policy_frame :=
  run_steps ((set_policy_steps env new_policy).take k) ⟨w, none⟩

/-- The function `kbase_pm_ca_set_policy`: all statements, run to the end. -/
def kbase_pm_ca_set_policy (env : Env) (new_policy : Option policy_ptr) (w : World) :
    Option World :=
  (run_steps (set_policy_steps env new_policy) ⟨w, none⟩).map (fun s => s.w)

/-- The function `kbase_pm_ca_update_core_status`; `lockdep_assert_held` has no effect
on the state and is left out. -/
def kbase_pm_ca_update_core_status (env : Env) (w : World)
    (cores_ready cores_transitioning : Nat) : World :=
  match w.kbdev.pm_ca_current_policy with
  | some p =>
    w.call (fun d => (env.deref p).update_core_status d cores_ready cores_transitioning)
      (Event.policy_update_core_status p cores_ready cores_transitioning)
  | none => w

/-- The function `kbase_pm_ca_instr_enable`. -/
def kbase_pm_ca_instr_enable (env : Env) (w : World) : World :=
  let w1 := w.spin_lock_irqsave
  let w2 := w1.store_instr_enabled MALI_TRUE
  let w3 := w2.call env.kbase_pm_update_cores_state_nolock
    Event.kbase_pm_update_cores_state_nolock
  w3.spin_unlock_irqrestore

/-- The function `kbase_pm_ca_instr_disable`. -/
def kbase_pm_ca_instr_disable (env : Env) (w : World) : World :=
  let w1 := w.spin_lock_irqsave
  let w2 := w1.store_instr_enabled MALI_FALSE
  let w3 := w2.call env.kbase_pm_update_cores_state_nolock
    Event.kbase_pm_update_cores_state_nolock
  w3.spin_unlock_irqrestore

/-! ### Frame conditions on the parameters -/

/-- No collaborator and no policy operation writes `kbdev->pm.ca_current_policy`: the
slot belongs to the manager. -/
structure slot_frame (env : Env) : Prop where
  context_active : ∀ d,
    (env.kbase_pm_context_active d).pm_ca_current_policy = d.pm_ca_current_policy
  context_idle : ∀ d,
    (env.kbase_pm_context_idle d).pm_ca_current_policy = d.pm_ca_current_policy
  update_cores_state : ∀ d,
    (env.kbase_pm_update_cores_state_nolock d).pm_ca_current_policy = d.pm_ca_current_policy
  policy_init : ∀ p f, (env.deref p).init = some f →
    ∀ d, (f d).2.pm_ca_current_policy = d.pm_ca_current_policy
  policy_term : ∀ p f, (env.deref p).term = some f →
    ∀ d, (f d).pm_ca_current_policy = d.pm_ca_current_policy
  policy_update_core_status : ∀ p d r t,
    ((env.deref p).update_core_status d r t).pm_ca_current_policy = d.pm_ca_current_policy

/-! ### Concrete policies and devices used to evaluate the functions -/

/-- Modelled from the spec: the "fixed" policy variant lives outside the two files; it
always reports a statically configured subset of the present cores.  Its other
operations do nothing and `init` succeeds. -/
def fixed_policy (mask : Nat) : kbase_pm_ca_policy where
  id := 0
  init := some (fun d => (MALI_ERROR_NONE, d))
  term := some (fun d => d)
  get_core_mask := fun d => mask &&& d.shader_present_bitmap
  update_core_status := fun d _ _ => d

/-- A policy that reports a constant mask, whatever cores are present, and has neither
an `init` nor a `term` (both function pointers null). -/
def bare_policy (mask : Nat) : kbase_pm_ca_policy where
  id := 1
  init := none
  term := none
  get_core_mask := fun _ => mask
  update_core_status := fun d _ _ => d

/-- A policy whose `init` reports a failure (status 1). -/
def failing_policy : kbase_pm_ca_policy where
  id := 2
  init := some (fun d => (1, d))
  term := some (fun d => d)
  get_core_mask := fun d => d.shader_present_bitmap
  update_core_status := fun d _ _ => d

/-- A memory with four policy objects: `Fixed(0xF)` at 1, `Fixed(0x3)` at 2, a bare
policy reporting `2` at 3 and the failing policy at 4. -/
def demo_deref (p : policy_ptr) : kbase_pm_ca_policy :=
  if p = 1 then fixed_policy 0xF
  else if p = 2 then fixed_policy 0x3
  else if p = 3 then bare_policy 2
  else failing_policy

/-- An environment over `demo_deref` whose registry starts with the object at `first`.
The recomputation of the core state marks the present cores as ready here. -/
def demo_env (first : policy_ptr) : Env where
  deref := demo_deref
  kbase_pm_ca_fixed_policy_ops := first
  kbase_pm_ca_random_policy_ops := 2
  MALI_CUSTOMER_RELEASE := 0
  kbase_pm_context_active := fun d => d
  kbase_pm_context_idle := fun d => d
  kbase_pm_update_cores_state_nolock := fun d =>
    { d with shader_ready_bitmap := d.shader_present_bitmap }

/-- A device with the given masks and slot, instrumentation off and no attribute
references. -/
def demo_device (present debug : Nat) (slot : Option policy_ptr) : kbase_device where
  shader_present_bitmap := present
  shader_ready_bitmap := 0
  shader_transitioning_bitmap := 0
  pm_debug_core_mask := debug
  pm_instr_enabled := MALI_FALSE
  pm_ca_current_policy := slot
  js_data_runpool_irq_ctx_attr_ref_count := fun _ => 0

/-- A world around `demo_device` with an empty log and no lock held. -/
def demo_world (present debug : Nat) (slot : Option policy_ptr) : World where
  kbdev := demo_device present debug slot
  calls := []
  power_change_lock_held := false
  pm_lock_held := false

/-- The recomputation of the core state leaves the manager's slot and flag and the
present and debug masks as they are. -/
structure recompute_frame (env : Env) : Prop where
  slot : ∀ d,
    (env.kbase_pm_update_cores_state_nolock d).pm_ca_current_policy = d.pm_ca_current_policy
  instr : ∀ d,
    (env.kbase_pm_update_cores_state_nolock d).pm_instr_enabled = d.pm_instr_enabled
  present : ∀ d,
    (env.kbase_pm_update_cores_state_nolock d).shader_present_bitmap = d.shader_present_bitmap
  debug : ∀ d,
    (env.kbase_pm_update_cores_state_nolock d).pm_debug_core_mask = d.pm_debug_core_mask

/-! ### Sequences of calls into the manager -/

/-- A completed call into the manager after `kbase_pm_ca_init`. -/
inductive ca_call where
  | set_policy (new_policy : policy_ptr)
  | update_core_status (cores_ready cores_transitioning : Nat)
  | get_core_mask
  | instr_enable
  | instr_disable

/-- Effect of one call on the world; `none` when the call faults. -/
def ca_call.run (env : Env) : ca_call → World → Option World
  | .set_policy p, w => kbase_pm_ca_set_policy env (some p) w
  | .update_core_status r t, w => some (kbase_pm_ca_update_core_status env w r t)
  | .get_core_mask, w => some (kbase_pm_ca_get_core_mask env w).2
  | .instr_enable, w => some (kbase_pm_ca_instr_enable env w)
  | .instr_disable, w => some (kbase_pm_ca_instr_disable env w)

/-- Effect of a sequence of calls, first call first. -/
def run_calls (env : Env) : List ca_call → World → Option World
  | [], w => some w
  | c :: cs, w => (c.run env w).bind (run_calls env cs)

/-- The argument of the most recent `set_policy` of a sequence, if there is one. -/
def last_set_policy : List ca_call → Option policy_ptr
  | [] => none
  | c :: cs =>
    match last_set_policy cs with
    | some p => some p
    | none =>
      match c with
      | .set_policy p => some p
      | _ => none

/-! ## mali_kbase_js_ctx_attr.h

The number of attributes `KBASEP_JS_CTX_ATTR_COUNT` and the width in bits of `mali_bool`
are fixed by headers outside the two files and are parameters here.  A failed
`KBASE_DEBUG_ASSERT` is the result `none`.  Each query returns its value together with
the object it was given a pointer to, as it is after the call. -/

/-- The conversion `(mali_bool) x` of an integer count to the unsigned type `mali_bool`
of width `bits`. -/
def to_mali_bool (bits : Nat) (x : Int) : mali_bool := (x % 2 ^ bits).toNat

/-- The inline function `kbasep_js_ctx_attr_count_on_runpool`; the array holds values
of the return type `s8`. -/
def kbasep_js_ctx_attr_count_on_runpool (KBASEP_JS_CTX_ATTR_COUNT : Nat)
    (kbdev : kbase_device) (attr : Nat) : Option (Int × kbase_device) :=
  if attr < KBASEP_JS_CTX_ATTR_COUNT then
    some (kbdev.js_data_runpool_irq_ctx_attr_ref_count attr, kbdev)
  else none

/-- The inline function `kbasep_js_ctx_attr_is_attr_on_runpool`. -/
def kbasep_js_ctx_attr_is_attr_on_runpool (KBASEP_JS_CTX_ATTR_COUNT bits : Nat)
    (kbdev : kbase_device) (attr : Nat) : Option (mali_bool × kbase_device) :=
  (kbasep_js_ctx_attr_count_on_runpool KBASEP_JS_CTX_ATTR_COUNT kbdev attr).map
    (fun r => (to_mali_bool bits r.1, r.2))

/-- The inline function `kbasep_js_ctx_attr_is_attr_on_ctx`. -/
def kbasep_js_ctx_attr_is_attr_on_ctx (KBASEP_JS_CTX_ATTR_COUNT bits : Nat)
    (kctx : kbase_context) (attr : Nat) : Option (mali_bool × kbase_context) :=
  if attr < KBASEP_JS_CTX_ATTR_COUNT then
    some (to_mali_bool bits (kctx.ctx_attr_ref_count attr), kctx)
  else none

/-- A device whose run-pool reference counts are given by `counts`. -/
def demo_js_device (counts : Nat → Int) : kbase_device :=
  { demo_device 0 0 none with js_data_runpool_irq_ctx_attr_ref_count := counts }

/-! ### The tracker operations declared in the header

The header only declares these five functions; their bodies are in a file that is not
among the sources.  They are modelled from the specification of the tracker. -/

/-- Modelled from the spec: `kbasep_js_atom_retained_state` is declared outside the two
files.  It is the snapshot, taken when an atom is added to a context, of exactly which
attributes that atom caused to be retained; it may be marked invalid. -/
structure kbasep_js_atom_retained_state where
  valid : Bool
  retained : Nat → Bool

/-- Modelled from the spec: the body of `kbasep_js_ctx_attr_set_initial_attrs` is missing.
It sets to 1 the context entries of the attributes derived from the creation
configuration (`initial`), and does not touch the run-pool counts. -/
def kbasep_js_ctx_attr_set_initial_attrs (KBASEP_JS_CTX_ATTR_COUNT : Nat)
    (initial : Nat → Bool) (kbdev : kbase_device) (kctx : kbase_context) :
    kbase_device × kbase_context :=
  (kbdev,
    { kctx with ctx_attr_ref_count := fun a =>
        if a < KBASEP_JS_CTX_ATTR_COUNT ∧ initial a = true then 1
        else kctx.ctx_attr_ref_count a })

/-- Modelled from the spec: the body of `kbasep_js_ctx_attr_runpool_retain_ctx` is
missing.  The context must be marked scheduled; for every attribute set on the context
the run-pool entry is incremented by 1. -/
def kbasep_js_ctx_attr_runpool_retain_ctx (KBASEP_JS_CTX_ATTR_COUNT : Nat)
    (kbdev : kbase_device) (kctx : kbase_context) : Option (kbase_device × kbase_context) :=
  if kctx.is_scheduled = true then
    some ({ kbdev with js_data_runpool_irq_ctx_attr_ref_count := fun a =>
              if a < KBASEP_JS_CTX_ATTR_COUNT ∧ kctx.ctx_attr_ref_count a ≠ 0 then
                kbdev.js_data_runpool_irq_ctx_attr_ref_count a + 1
              else kbdev.js_data_runpool_irq_ctx_attr_ref_count a },
          kctx)
  else none

/-- Modelled from the spec: the body of `kbasep_js_ctx_attr_runpool_release_ctx` is
missing.  The context must be marked scheduled; for every attribute set on the context
the run-pool entry is decremented by 1, failing fast if a count would go negative; the
result is true if any decremented entry went from nonzero to zero. -/
def kbasep_js_ctx_attr_runpool_release_ctx (KBASEP_JS_CTX_ATTR_COUNT : Nat)
    (kbdev : kbase_device) (kctx : kbase_context) :
    Option (Bool × kbase_device × kbase_context) :=
  if kctx.is_scheduled = true ∧
      (List.range KBASEP_JS_CTX_ATTR_COUNT).all (fun a =>
        decide (kctx.ctx_attr_ref_count a ≠ 0 →
          0 < kbdev.js_data_runpool_irq_ctx_attr_ref_count a)) = true then
    some ((List.range KBASEP_JS_CTX_ATTR_COUNT).any (fun a =>
            decide (kctx.ctx_attr_ref_count a ≠ 0) &&
            decide (kbdev.js_data_runpool_irq_ctx_attr_ref_count a ≠ 0) &&
            decide (kbdev.js_data_runpool_irq_ctx_attr_ref_count a - 1 = 0)),
          { kbdev with js_data_runpool_irq_ctx_attr_ref_count := fun a =>
              if a < KBASEP_JS_CTX_ATTR_COUNT ∧ kctx.ctx_attr_ref_count a ≠ 0 then
                kbdev.js_data_runpool_irq_ctx_attr_ref_count a - 1
              else kbdev.js_data_runpool_irq_ctx_attr_ref_count a },
          kctx)
  else none

/-- Modelled from the spec: the body of `kbasep_js_ctx_attr_ctx_retain_atom` is missing.
The attribute set implied by the atom's requirements (`atom_attrs`, an external
derivation) is added to the context counts and, if the context is scheduled, to the
run-pool counts; the attributes incremented are recorded in the snapshot returned. -/
def kbasep_js_ctx_attr_ctx_retain_atom (KBASEP_JS_CTX_ATTR_COUNT : Nat)
    (atom_attrs : Nat → Bool) (kbdev : kbase_device) (kctx : kbase_context) :
    kbase_device × kbase_context × kbasep_js_atom_retained_state :=
  ({ kbdev with js_data_runpool_irq_ctx_attr_ref_count := fun a =>
        if kctx.is_scheduled = true ∧ a < KBASEP_JS_CTX_ATTR_COUNT ∧ atom_attrs a = true then
          kbdev.js_data_runpool_irq_ctx_attr_ref_count a + 1
        else kbdev.js_data_runpool_irq_ctx_attr_ref_count a },
    { kctx with ctx_attr_ref_count := fun a =>
        if a < KBASEP_JS_CTX_ATTR_COUNT ∧ atom_attrs a = true then
          kctx.ctx_attr_ref_count a + 1
        else kctx.ctx_attr_ref_count a },
    { valid := true,
      retained := fun a => decide (a < KBASEP_JS_CTX_ATTR_COUNT) && atom_attrs a })

/-- Modelled from the spec: the body of `kbasep_js_ctx_attr_ctx_release_atom` is missing.
An invalid snapshot makes it a no-op returning false.  Otherwise, for the attributes
recorded in the snapshot only, the context count and, if the context is scheduled, the
run-pool count are decremented, failing fast if a count would go negative; the result
is true if a decremented run-pool entry went from nonzero to zero. -/
def kbasep_js_ctx_attr_ctx_release_atom (KBASEP_JS_CTX_ATTR_COUNT : Nat)
    (kbdev : kbase_device) (kctx : kbase_context)
    (katom_retained_state : kbasep_js_atom_retained_state) :
    Option (Bool × kbase_device × kbase_context) :=
  if katom_retained_state.valid = false then some (false, kbdev, kctx)
  else if (List.range KBASEP_JS_CTX_ATTR_COUNT).all (fun a =>
      decide (katom_retained_state.retained a = true →
        0 < kctx.ctx_attr_ref_count a ∧
        (kctx.is_scheduled = true →
          0 < kbdev.js_data_runpool_irq_ctx_attr_ref_count a))) = true then
    some (kctx.is_scheduled &&
            (List.range KBASEP_JS_CTX_ATTR_COUNT).any (fun a =>
              katom_retained_state.retained a &&
              decide (kbdev.js_data_runpool_irq_ctx_attr_ref_count a ≠ 0) &&
              decide (kbdev.js_data_runpool_irq_ctx_attr_ref_count a - 1 = 0)),
          { kbdev with js_data_runpool_irq_ctx_attr_ref_count := fun a =>
              if kctx.is_scheduled = true ∧ a < KBASEP_JS_CTX_ATTR_COUNT ∧
                  katom_retained_state.retained a = true then
                kbdev.js_data_runpool_irq_ctx_attr_ref_count a - 1
              else kbdev.js_data_runpool_irq_ctx_attr_ref_count a },
          { kctx with ctx_attr_ref_count := fun a =>
              if a < KBASEP_JS_CTX_ATTR_COUNT ∧ katom_retained_state.retained a = true then
                kctx.ctx_attr_ref_count a - 1
              else kctx.ctx_attr_ref_count a })
  else none

/-- A context created with the single attribute `attr` (set by
`kbasep_js_ctx_attr_set_initial_attrs` on a context without references) and then marked
scheduled. -/
def single_attr_context (KBASEP_JS_CTX_ATTR_COUNT attr : Nat) : kbase_context :=
  { (kbasep_js_ctx_attr_set_initial_attrs KBASEP_JS_CTX_ATTR_COUNT (fun a => a == attr)
      (demo_js_device (fun _ => 0)) ⟨fun _ => 0, false⟩).2 with is_scheduled := true }

/-! ## Bit-level lemmas on masks -/

theorem mask_subset_iff_testBit (a b : Nat) :
    mask_subset a b ↔ ∀ i, a.testBit i = true → b.testBit i = true := by
  unfold mask_subset
  constructor
  · intro h i hi
    have := congrArg (fun x => x.testBit i) h
    simp only [Nat.testBit_and, hi, Bool.true_and] at this
    exact this
  · intro h
    apply Nat.eq_of_testBit_eq
    intro i
    rw [Nat.testBit_and]
    cases hi : a.testBit i
    · simp
    · simp [h i hi]

theorem mask_subset_and_right (x d : Nat) : mask_subset (x &&& d) d := by
  rw [mask_subset_iff_testBit]
  intro i hi
  rw [Nat.testBit_and] at hi
  simp only [Bool.and_eq_true] at hi
  exact hi.2

theorem mask_subset_and_and (x p d : Nat) (h : mask_subset x p) :
    mask_subset (x &&& d) (p &&& d) := by
  rw [mask_subset_iff_testBit] at *
  intro i hi
  rw [Nat.testBit_and] at hi ⊢
  simp only [Bool.and_eq_true] at hi ⊢
  exact ⟨h i hi.1, hi.2⟩

theorem mask_subset_refl (a : Nat) : mask_subset a a := by
  unfold mask_subset; exact Nat.and_self a

theorem testBit_u64_not (m i : Nat) :
    (u64_not m).testBit i = (decide (i < 64) && !m.testBit i) := by
  unfold u64_not
  rw [Nat.testBit_two_pow_sub_succ (Nat.mod_lt _ (by positivity)), Nat.testBit_mod_two_pow]
  by_cases h : i < 64 <;> simp [h]

theorem and_u64_not_eq_zero (r m : Nat) (h : mask_subset r m) : r &&& u64_not m = 0 := by
  rw [mask_subset_iff_testBit] at h
  apply Nat.eq_of_testBit_eq
  intro i
  rw [Nat.testBit_and, testBit_u64_not, Nat.zero_testBit]
  cases hi : r.testBit i
  · simp
  · simp [h i hi]

theorem demo_slot_frame (first : policy_ptr) : slot_frame (demo_env first) where
  context_active := fun _ => rfl
  context_idle := fun _ => rfl
  update_cores_state := fun _ => rfl
  policy_init := by
    intro p f h d
    simp only [demo_env, demo_deref] at h
    split_ifs at h <;>
      simp only [fixed_policy, bare_policy, failing_policy, Option.some.injEq] at h <;>
      first
        | (subst h; rfl)
        | exact absurd h (by simp)
  policy_term := by
    intro p f h d
    simp only [demo_env, demo_deref] at h
    split_ifs at h <;>
      simp only [fixed_policy, bare_policy, failing_policy, Option.some.injEq] at h <;>
      first
        | (subst h; rfl)
        | exact absurd h (by simp)
  policy_update_core_status := by
    intro p d r t
    simp only [demo_env, demo_deref]
    split_ifs <;> rfl

/-! ## The core mask -/

/-- C1, as stated, fails: with present cores `0x1`, debug mask `0x3` and an active
policy reporting `0x2`, `kbase_pm_ca_get_core_mask` returns `0x2`, which is not a
subset of `present & debug = 0x1`: `result & ~(present & debug)` is `0x2`. -/
theorem C1_counterexample :
    (kbase_pm_ca_get_core_mask (demo_env 1) (demo_world 1 3 (some 3))).1 = 2 ∧
    ¬ mask_subset (kbase_pm_ca_get_core_mask (demo_env 1) (demo_world 1 3 (some 3))).1
        ((demo_world 1 3 (some 3)).kbdev.shader_present_bitmap &&&
          (demo_world 1 3 (some 3)).kbdev.pm_debug_core_mask) ∧
    (kbase_pm_ca_get_core_mask (demo_env 1) (demo_world 1 3 (some 3))).1 &&&
        u64_not ((demo_world 1 3 (some 3)).kbdev.shader_present_bitmap &&&
          (demo_world 1 3 (some 3)).kbdev.pm_debug_core_mask) = 2 := by
  decide

/-- C1, amended: for every device state the mask returned by
`kbase_pm_ca_get_core_mask` is a subset of `debug_core_mask`; it is a subset of
`shader_present_bitmap & debug_core_mask` (that is, `result & ~(present & debug) == 0`)
whenever instrumentation is enabled, or the slot is absent, or the mask reported by the
active policy is a subset of the present cores. -/
theorem C1_get_core_mask_subset (env : Env) (w : World) :
    mask_subset (kbase_pm_ca_get_core_mask env w).1 w.kbdev.pm_debug_core_mask ∧
    ((∀ p, w.kbdev.pm_instr_enabled ≠ MALI_TRUE → w.kbdev.pm_ca_current_policy = some p →
        mask_subset ((env.deref p).get_core_mask w.kbdev) w.kbdev.shader_present_bitmap) →
      mask_subset (kbase_pm_ca_get_core_mask env w).1
          (w.kbdev.shader_present_bitmap &&& w.kbdev.pm_debug_core_mask) ∧
        (kbase_pm_ca_get_core_mask env w).1 &&&
          u64_not (w.kbdev.shader_present_bitmap &&& w.kbdev.pm_debug_core_mask) = 0) := by
  have key : (∀ p, w.kbdev.pm_instr_enabled ≠ MALI_TRUE →
        w.kbdev.pm_ca_current_policy = some p →
        mask_subset ((env.deref p).get_core_mask w.kbdev) w.kbdev.shader_present_bitmap) →
      mask_subset (kbase_pm_ca_get_core_mask env w).1
          (w.kbdev.shader_present_bitmap &&& w.kbdev.pm_debug_core_mask) := by
    intro h
    unfold kbase_pm_ca_get_core_mask
    by_cases hi : w.kbdev.pm_instr_enabled = MALI_TRUE
    · simp only [hi, if_true]
      exact mask_subset_refl _
    · simp only [hi, if_false]
      cases hs : w.kbdev.pm_ca_current_policy with
      | none => exact mask_subset_refl _
      | some p => exact mask_subset_and_and _ _ _ (h p hi hs)
  refine ⟨?_, fun h => ⟨key h, and_u64_not_eq_zero _ _ (key h)⟩⟩
  unfold kbase_pm_ca_get_core_mask
  by_cases hi : w.kbdev.pm_instr_enabled = MALI_TRUE
  · simp only [hi, if_true]
    exact mask_subset_and_right _ _
  · simp only [hi, if_false]
    cases hs : w.kbdev.pm_ca_current_policy with
    | none => exact mask_subset_and_right _ _
    | some p => exact mask_subset_and_right _ _

/-- Witness for C1 (amended): `Fixed(0xF)` active on a device with present cores `0x7`
and debug mask `0x5`. -/
theorem C1_get_core_mask_subset_witness :
    mask_subset (kbase_pm_ca_get_core_mask (demo_env 1) (demo_world 7 5 (some 1))).1
        ((demo_world 7 5 (some 1)).kbdev.shader_present_bitmap &&&
          (demo_world 7 5 (some 1)).kbdev.pm_debug_core_mask) ∧
      (kbase_pm_ca_get_core_mask (demo_env 1) (demo_world 7 5 (some 1))).1 &&&
        u64_not ((demo_world 7 5 (some 1)).kbdev.shader_present_bitmap &&&
          (demo_world 7 5 (some 1)).kbdev.pm_debug_core_mask) = 0 :=
  (C1_get_core_mask_subset (demo_env 1) (demo_world 7 5 (some 1))).2
    (fun p _ hp => by
      have hp1 : p = 1 := by
        simp only [demo_world, demo_device, Option.some.injEq] at hp
        exact hp.symm
      subst hp1
      decide)

/-- C2: `kbase_pm_ca_get_core_mask` returns `shader_present_bitmap & debug_core_mask`
without calling the policy (the world, log included, is unchanged) when instrumentation
is enabled or the slot is null; otherwise it calls the active policy's `get_core_mask`
once and returns its value `& debug_core_mask`. -/
theorem C2_get_core_mask_cases (env : Env) (w : World) :
    ((w.kbdev.pm_instr_enabled = MALI_TRUE ∨ w.kbdev.pm_ca_current_policy = none) →
      kbase_pm_ca_get_core_mask env w =
        (w.kbdev.shader_present_bitmap &&& w.kbdev.pm_debug_core_mask, w)) ∧
    (∀ p, w.kbdev.pm_instr_enabled ≠ MALI_TRUE → w.kbdev.pm_ca_current_policy = some p →
      kbase_pm_ca_get_core_mask env w =
        ((env.deref p).get_core_mask w.kbdev &&& w.kbdev.pm_debug_core_mask,
          { w with calls := w.calls ++ [Event.policy_get_core_mask p] })) := by
  constructor
  · intro h
    unfold kbase_pm_ca_get_core_mask
    by_cases hi : w.kbdev.pm_instr_enabled = MALI_TRUE
    · simp only [hi, if_true]
    · rcases h with h | h
      · exact absurd h hi
      · simp only [hi, if_false, h]
  · intro p hi hs
    unfold kbase_pm_ca_get_core_mask
    simp only [hi, if_false, hs]

/-- Witness for C2: the absent slot, and `Fixed(0x3)` active, on a device with present
cores `0xF` and debug mask `0x6`. -/
theorem C2_get_core_mask_cases_witness :
    (kbase_pm_ca_get_core_mask (demo_env 1) (demo_world 15 6 none)).1 = 6 ∧
    (kbase_pm_ca_get_core_mask (demo_env 1) (demo_world 15 6 none)).2.calls = [] ∧
    (kbase_pm_ca_get_core_mask (demo_env 1) (demo_world 15 6 (some 2))).1 = 2 ∧
    (kbase_pm_ca_get_core_mask (demo_env 1) (demo_world 15 6 (some 2))).2.calls =
      [Event.policy_get_core_mask 2] := by
  have h1 := (C2_get_core_mask_cases (demo_env 1) (demo_world 15 6 none)).1 (Or.inr rfl)
  have h2 := (C2_get_core_mask_cases (demo_env 1) (demo_world 15 6 (some 2))).2 2
    (by decide) rfl
  rw [h1, h2]
  decide

/-! ## Initialisation -/

/-- C3, as stated, fails: with a first registry entry whose `init` reports the failure
status 1, `kbase_pm_ca_init` still returns `MALI_ERROR_NONE` and leaves that policy in
the active slot. -/
theorem C3_counterexample :
    ((demo_env 4).deref 4).init.map
        (fun f => (f ((demo_world 15 15 none).store_ca_current_policy (some 4)).kbdev).1)
      = some 1 ∧
    (policy_list (demo_env 4))[0]? = some 4 ∧
    (kbase_pm_ca_init (demo_env 4) (demo_world 15 15 none)).map (fun r => r.1)
      = some MALI_ERROR_NONE ∧
    (kbase_pm_ca_init (demo_env 4) (demo_world 15 15 none)).map
        (fun r => kbase_pm_ca_get_policy r.2.kbdev)
      = some (some 4) ∧
    (kbase_pm_ca_init (demo_env 4) (demo_world 15 15 none)).map (fun r => r.2.calls)
      = some [Event.store_ca_current_policy (some 4), Event.policy_init 4] := by
  decide

/-- C3, amended: `kbase_pm_ca_init` never reports a failure.  When the first registry
entry has an `init` operation, it stores that entry in the active slot, calls its
`init` once, drops whatever status `init` reports and returns `MALI_ERROR_NONE`; the
entry is the active policy afterwards (given that `init` does not write the slot). -/
theorem C3_init_returns_success (env : Env) (w : World)
    (f : kbase_device → mali_error × kbase_device)
    (hinit : (env.deref env.kbase_pm_ca_fixed_policy_ops).init = some f)
    (hframe : ∀ d, (f d).2.pm_ca_current_policy = d.pm_ca_current_policy) :
    (policy_list env)[0]? = some env.kbase_pm_ca_fixed_policy_ops ∧
    ∃ w1, kbase_pm_ca_init env w = some (MALI_ERROR_NONE, w1) ∧
      w1.kbdev = (f { w.kbdev with
        pm_ca_current_policy := some env.kbase_pm_ca_fixed_policy_ops }).2 ∧
      w1.calls = w.calls ++
        [Event.store_ca_current_policy (some env.kbase_pm_ca_fixed_policy_ops),
         Event.policy_init env.kbase_pm_ca_fixed_policy_ops] ∧
      kbase_pm_ca_get_policy w1.kbdev = some env.kbase_pm_ca_fixed_policy_ops := by
  refine ⟨by simp [policy_list], ?_⟩
  simp only [kbase_pm_ca_init, policy_list, List.getElem?_cons_zero,
    World.store_ca_current_policy, hinit, World.call]
  refine ⟨_, rfl, rfl, by simp, ?_⟩
  simp only [kbase_pm_ca_get_policy, hframe]

/-- Witness for C3 (amended): the failing policy first in the registry. -/
theorem C3_init_returns_success_witness :
    ∃ w1, kbase_pm_ca_init (demo_env 4) (demo_world 15 15 none) = some (MALI_ERROR_NONE, w1) ∧
      kbase_pm_ca_get_policy w1.kbdev = some 4 := by
  obtain ⟨_, w1, h1, _, _, h4⟩ :=
    C3_init_returns_success (demo_env 4) (demo_world 15 15 none) (fun d => (1, d)) rfl
      (fun _ => rfl)
  exact ⟨w1, h1, h4⟩

/-! ## Changing the policy -/

/-- C4, as stated, fails: when the outgoing policy has a null `term` (the bare policy
at 3) no `term` call is issued, and when the incoming policy has a null `init` no
`init` call is issued. -/
theorem C4_counterexample :
    ((demo_env 1).deref 3).term.isNone = true ∧
    (kbase_pm_ca_set_policy (demo_env 1) (some 2) (demo_world 15 15 (some 3))).map
        (fun w => w.calls)
      = some [Event.kbase_pm_context_active, Event.store_ca_current_policy none,
          Event.policy_init 2, Event.store_ca_current_policy (some 2),
          Event.kbase_pm_update_cores_state_nolock,
          Event.policy_update_core_status 2 15 0, Event.kbase_pm_context_idle] ∧
    ((demo_env 1).deref 3).init.isNone = true ∧
    (kbase_pm_ca_set_policy (demo_env 1) (some 3) (demo_world 15 15 (some 1))).map
        (fun w => w.calls)
      = some [Event.kbase_pm_context_active, Event.store_ca_current_policy none,
          Event.policy_term 1, Event.store_ca_current_policy (some 3),
          Event.kbase_pm_update_cores_state_nolock,
          Event.policy_update_core_status 3 15 0, Event.kbase_pm_context_idle] := by
  decide

/-- C4, amended: from active policy `P`, `kbase_pm_ca_set_policy(kbdev, P')` returns and
its effects are, in this order: `kbase_pm_context_active`, store of null in the slot,
`P.term` if that pointer is not null, `P'.init` if that pointer is not null, store of
`P'` in the slot, `kbase_pm_update_cores_state_nolock`,
`P'.update_core_status(shader_ready_bitmap, shader_transitioning_bitmap)` with the
bitmaps as they are after the recomputation, `kbase_pm_context_idle`; afterwards
`kbase_pm_ca_get_policy` returns `P'` and neither lock is still held. -/
theorem C4_set_policy_call_order (env : Env) (w : World) (P P' : policy_ptr)
    (hf : slot_frame env) (hP : w.kbdev.pm_ca_current_policy = some P) :
    ∃ s w', set_policy_after env (some P') 12 w = some s ∧
      kbase_pm_ca_set_policy env (some P') w = some w' ∧
      w'.calls = w.calls ++
        [Event.kbase_pm_context_active, Event.store_ca_current_policy none] ++
        (if (env.deref P).term.isSome then [Event.policy_term P] else []) ++
        (if (env.deref P').init.isSome then [Event.policy_init P'] else []) ++
        [Event.store_ca_current_policy (some P'),
         Event.kbase_pm_update_cores_state_nolock,
         Event.policy_update_core_status P' s.w.kbdev.shader_ready_bitmap
           s.w.kbdev.shader_transitioning_bitmap,
         Event.kbase_pm_context_idle] ∧
      kbase_pm_ca_get_policy w'.kbdev = some P' ∧
      w'.power_change_lock_held = false ∧ w'.pm_lock_held = false := by
  have h1 := hf.context_active w.kbdev
  rcases ht : (env.deref P).term with _ | ft <;>
    rcases hi : (env.deref P').init with _ | fi <;>
    simp [kbase_pm_ca_set_policy, set_policy_after, set_policy_steps, run_steps,
      World.call, World.store_ca_current_policy, World.spin_lock_irqsave,
      World.spin_unlock_irqrestore, World.mutex_lock, World.mutex_unlock,
      kbase_pm_ca_get_policy, h1, hP, ht, hi, hf.update_cores_state,
      hf.context_idle, hf.policy_update_core_status]

/-- Witness for C4 (amended): `Fixed(0xF)` replaced by `Fixed(0x3)`. -/
theorem C4_set_policy_call_order_witness :
    ∃ w', kbase_pm_ca_set_policy (demo_env 1) (some 2) (demo_world 15 15 (some 1)) = some w' ∧
      kbase_pm_ca_get_policy w'.kbdev = some 2 := by
  obtain ⟨_, w', _, h2, _, h4, _⟩ :=
    C4_set_policy_call_order (demo_env 1) (demo_world 15 15 (some 1)) 1 2
      (demo_slot_frame 1) rfl
  exact ⟨w', h2, h4⟩

theorem set_policy_after_of_ge (env : Env) (np : Option policy_ptr) (k : Nat) (w : World)
    (hk : 16 ≤ k) : set_policy_after env np k w = set_policy_after env np 16 w := by
  unfold set_policy_after
  rw [List.take_of_length_le (by simpa [set_policy_steps] using hk),
    List.take_of_length_le (by simp [set_policy_steps])]

/-- At every point of `kbase_pm_ca_set_policy` where the spinlock is free the slot holds
the old policy before its `term`, or null, or the new policy after its `init`. -/
theorem set_policy_points (env : Env) (w : World) (P P' : policy_ptr)
    (hf : slot_frame env) (hP : w.kbdev.pm_ca_current_policy = some P) (k : Nat) (hk : k ≤ 16) :
    ∃ s, set_policy_after env (some P') k w = some s ∧
      (s.w.power_change_lock_held = false →
        (s.w.kbdev.pm_ca_current_policy = some P ∧
            Event.policy_term P ∉ s.w.calls.drop w.calls.length) ∨
          s.w.kbdev.pm_ca_current_policy = none ∨
          (s.w.kbdev.pm_ca_current_policy = some P' ∧
            ((env.deref P').init.isSome = true →
              Event.policy_init P' ∈ s.w.calls.drop w.calls.length))) := by
  have h1 := hf.context_active w.kbdev
  rcases ht : (env.deref P).term with _ | ft
  · rcases hi : (env.deref P').init with _ | fi
    · interval_cases k <;>
        simp [set_policy_after, set_policy_steps, run_steps,
          World.call, World.store_ca_current_policy, World.spin_lock_irqsave,
          World.spin_unlock_irqrestore, World.mutex_lock, World.mutex_unlock,
          h1, hP, ht, hi, hf.update_cores_state,
          hf.context_idle, hf.policy_update_core_status]
    · have hfi := hf.policy_init _ _ hi
      interval_cases k <;>
        simp [set_policy_after, set_policy_steps, run_steps,
          World.call, World.store_ca_current_policy, World.spin_lock_irqsave,
          World.spin_unlock_irqrestore, World.mutex_lock, World.mutex_unlock,
          h1, hP, ht, hi, hfi, hf.update_cores_state,
          hf.context_idle, hf.policy_update_core_status]
  · have hft := hf.policy_term _ _ ht
    rcases hi : (env.deref P').init with _ | fi
    · interval_cases k <;>
        simp [set_policy_after, set_policy_steps, run_steps,
          World.call, World.store_ca_current_policy, World.spin_lock_irqsave,
          World.spin_unlock_irqrestore, World.mutex_lock, World.mutex_unlock,
          h1, hP, ht, hi, hft, hf.update_cores_state,
          hf.context_idle, hf.policy_update_core_status]
    · have hfi := hf.policy_init _ _ hi
      interval_cases k <;>
        simp [set_policy_after, set_policy_steps, run_steps,
          World.call, World.store_ca_current_policy, World.spin_lock_irqsave,
          World.spin_unlock_irqrestore, World.mutex_lock, World.mutex_unlock,
          h1, hP, ht, hi, hft, hfi, hf.update_cores_state,
          hf.context_idle, hf.policy_update_core_status]

/-- C5, as stated, fails: changing from `Fixed(0xF)` (at 1) to the bare policy at 3,
whose `init` pointer is null, the function ends with the spinlock free and the slot
holding the new policy although no `init` of that policy was ever called: the slot is
neither the old policy before its `term`, nor null, nor the new policy with its `init`
completed. -/
theorem C5_counterexample :
    ((demo_env 1).deref 3).init.isNone = true ∧
    (set_policy_after (demo_env 1) (some 3) 16 (demo_world 15 15 (some 1))).map
        (fun s => (s.w.power_change_lock_held, s.w.kbdev.pm_ca_current_policy, s.w.calls))
      = some (false, some 3,
          [Event.kbase_pm_context_active, Event.store_ca_current_policy none,
            Event.policy_term 1, Event.store_ca_current_policy (some 3),
            Event.kbase_pm_update_cores_state_nolock,
            Event.policy_update_core_status 3 15 0, Event.kbase_pm_context_idle]) ∧
    ¬ (((some 3 : Option policy_ptr) = some 1 ∧
          Event.policy_term 1 ∉
            [Event.kbase_pm_context_active, Event.store_ca_current_policy none,
              Event.policy_term 1, Event.store_ca_current_policy (some 3),
              Event.kbase_pm_update_cores_state_nolock,
              Event.policy_update_core_status 3 15 0, Event.kbase_pm_context_idle]) ∨
        (some 3 : Option policy_ptr) = none ∨
        ((some 3 : Option policy_ptr) = some 3 ∧
          Event.policy_init 3 ∈
            [Event.kbase_pm_context_active, Event.store_ca_current_policy none,
              Event.policy_term 1, Event.store_ca_current_policy (some 3),
              Event.kbase_pm_update_cores_state_nolock,
              Event.policy_update_core_status 3 15 0, Event.kbase_pm_context_idle])) := by
  decide

/-- C5, amended: at every point of `kbase_pm_ca_set_policy(kbdev, P')` from active policy
`P` (the function reaches each of them) where it does not hold the power-change
spinlock, the slot is `P` with `P.term` not yet called, or null, or `P'` installed after
the guarded `init` statement, that is with `P'.init` completed when the `init` pointer of
`P'` is not null and with no `init` call at all when it is null;
so the value of `kbase_pm_ca_get_core_mask` at such a point is the mask of `P` `& debug`,
`present & debug`, or the mask of `P'` `& debug`, and with `P = Fixed(0xF)` and
`P' = Fixed(0x3)` it is `0xF & present & debug`, `present & debug` or
`0x3 & present & debug`. -/
theorem C5_set_policy_observed_slot (env : Env) (w : World) (P P' : policy_ptr)
    (hf : slot_frame env) (hP : w.kbdev.pm_ca_current_policy = some P) (k : Nat) :
    ∃ s, set_policy_after env (some P') k w = some s ∧
      (s.w.power_change_lock_held = false →
        ((s.w.kbdev.pm_ca_current_policy = some P ∧
            Event.policy_term P ∉ s.w.calls.drop w.calls.length) ∨
          s.w.kbdev.pm_ca_current_policy = none ∨
          (s.w.kbdev.pm_ca_current_policy = some P' ∧
            ((env.deref P').init.isSome = true →
              Event.policy_init P' ∈ s.w.calls.drop w.calls.length))) ∧
        ((kbase_pm_ca_get_core_mask env s.w).1 =
              (env.deref P).get_core_mask s.w.kbdev &&& s.w.kbdev.pm_debug_core_mask ∨
            (kbase_pm_ca_get_core_mask env s.w).1 =
              s.w.kbdev.shader_present_bitmap &&& s.w.kbdev.pm_debug_core_mask ∨
            (kbase_pm_ca_get_core_mask env s.w).1 =
              (env.deref P').get_core_mask s.w.kbdev &&& s.w.kbdev.pm_debug_core_mask) ∧
        (env.deref P = fixed_policy 0xF → env.deref P' = fixed_policy 0x3 →
          (kbase_pm_ca_get_core_mask env s.w).1 =
              0xF &&& s.w.kbdev.shader_present_bitmap &&& s.w.kbdev.pm_debug_core_mask ∨
            (kbase_pm_ca_get_core_mask env s.w).1 =
              s.w.kbdev.shader_present_bitmap &&& s.w.kbdev.pm_debug_core_mask ∨
            (kbase_pm_ca_get_core_mask env s.w).1 =
              0x3 &&& s.w.kbdev.shader_present_bitmap &&& s.w.kbdev.pm_debug_core_mask)) := by
  have key : ∃ s, set_policy_after env (some P') k w = some s ∧
      (s.w.power_change_lock_held = false →
        (s.w.kbdev.pm_ca_current_policy = some P ∧
            Event.policy_term P ∉ s.w.calls.drop w.calls.length) ∨
          s.w.kbdev.pm_ca_current_policy = none ∨
          (s.w.kbdev.pm_ca_current_policy = some P' ∧
            ((env.deref P').init.isSome = true →
              Event.policy_init P' ∈ s.w.calls.drop w.calls.length))) := by
    by_cases hk : k ≤ 16
    · exact set_policy_points env w P P' hf hP k hk
    · rw [set_policy_after_of_ge env (some P') k w (by omega)]
      exact set_policy_points env w P P' hf hP 16 (le_refl _)
  obtain ⟨s, hs, hslot⟩ := key
  refine ⟨s, hs, fun hl => ?_⟩
  have hval : (kbase_pm_ca_get_core_mask env s.w).1 =
        (env.deref P).get_core_mask s.w.kbdev &&& s.w.kbdev.pm_debug_core_mask ∨
      (kbase_pm_ca_get_core_mask env s.w).1 =
        s.w.kbdev.shader_present_bitmap &&& s.w.kbdev.pm_debug_core_mask ∨
      (kbase_pm_ca_get_core_mask env s.w).1 =
        (env.deref P').get_core_mask s.w.kbdev &&& s.w.kbdev.pm_debug_core_mask := by
    by_cases hi : s.w.kbdev.pm_instr_enabled = MALI_TRUE
    · refine Or.inr (Or.inl ?_)
      simp only [kbase_pm_ca_get_core_mask, hi, if_true]
    · rcases hslot hl with h | h | h
      · refine Or.inl ?_
        simp only [kbase_pm_ca_get_core_mask, hi, if_false, h.1]
      · refine Or.inr (Or.inl ?_)
        simp only [kbase_pm_ca_get_core_mask, hi, if_false, h]
      · refine Or.inr (Or.inr ?_)
        simp only [kbase_pm_ca_get_core_mask, hi, if_false, h.1]
  refine ⟨hslot hl, hval, fun hFP hFP' => ?_⟩
  rw [hFP, hFP'] at hval
  exact hval

/-- Witness for C5 (amended): the point after `P.term` (eight statements in) of the change from
`Fixed(0xF)` at 1 to `Fixed(0x3)` at 2, on a device with present cores `0x7` and debug
mask `0xD`; the slot is null there and the mask is `present & debug = 0x5`. -/
theorem C5_set_policy_observed_slot_witness :
    ∃ s, set_policy_after (demo_env 1) (some 2) 8 (demo_world 7 13 (some 1)) = some s ∧
      s.w.power_change_lock_held = false ∧
      ((s.w.kbdev.pm_ca_current_policy = some 1 ∧
          Event.policy_term 1 ∉ s.w.calls.drop (demo_world 7 13 (some 1)).calls.length) ∨
        s.w.kbdev.pm_ca_current_policy = none ∨
        (s.w.kbdev.pm_ca_current_policy = some 2 ∧
          (((demo_env 1).deref 2).init.isSome = true →
            Event.policy_init 2 ∈
              s.w.calls.drop (demo_world 7 13 (some 1)).calls.length))) ∧
      ((kbase_pm_ca_get_core_mask (demo_env 1) s.w).1 =
          0xF &&& s.w.kbdev.shader_present_bitmap &&& s.w.kbdev.pm_debug_core_mask ∨
        (kbase_pm_ca_get_core_mask (demo_env 1) s.w).1 =
          s.w.kbdev.shader_present_bitmap &&& s.w.kbdev.pm_debug_core_mask ∨
        (kbase_pm_ca_get_core_mask (demo_env 1) s.w).1 =
          0x3 &&& s.w.kbdev.shader_present_bitmap &&& s.w.kbdev.pm_debug_core_mask) := by
  obtain ⟨s, hs, h⟩ :=
    C5_set_policy_observed_slot (demo_env 1) (demo_world 7 13 (some 1)) 1 2
      (demo_slot_frame 1) rfl 8
  have hl : s.w.power_change_lock_held = false := by
    have hs' : some s = set_policy_after (demo_env 1) (some 2) 8 (demo_world 7 13 (some 1)) :=
      hs.symm
    have hv : set_policy_after (demo_env 1) (some 2) 8 (demo_world 7 13 (some 1)) =
        some ⟨⟨demo_device 7 13 none,
          [Event.kbase_pm_context_active, Event.store_ca_current_policy none,
            Event.policy_term 1], false, true⟩, some 1⟩ := rfl
    rw [hv, Option.some.injEq] at hs'
    rw [hs']
  exact ⟨s, hs, hl, (h hl).1, (h hl).2.2 rfl rfl⟩

/-! ## Forwarding the core status -/

/-- C6: with a policy active, `kbase_pm_ca_update_core_status` calls that policy's
`update_core_status` once with the two masks it was given and does nothing else; with
the slot null it leaves the world as it is, log included; it never stores to the slot,
so the slot is unchanged (the policy operation not writing it). -/
theorem C6_update_core_status (env : Env) (w : World) (cores_ready cores_transitioning : Nat) :
    (∀ p, w.kbdev.pm_ca_current_policy = some p →
      kbase_pm_ca_update_core_status env w cores_ready cores_transitioning =
        { w with
          kbdev := (env.deref p).update_core_status w.kbdev cores_ready cores_transitioning,
          calls := w.calls ++
            [Event.policy_update_core_status p cores_ready cores_transitioning] }) ∧
    (w.kbdev.pm_ca_current_policy = none →
      kbase_pm_ca_update_core_status env w cores_ready cores_transitioning = w) ∧
    (∀ v, Event.store_ca_current_policy v ∉
      (kbase_pm_ca_update_core_status env w cores_ready cores_transitioning).calls.drop
        w.calls.length) ∧
    ((∀ p d r t, ((env.deref p).update_core_status d r t).pm_ca_current_policy =
        d.pm_ca_current_policy) →
      (kbase_pm_ca_update_core_status env w cores_ready cores_transitioning).kbdev.pm_ca_current_policy
        = w.kbdev.pm_ca_current_policy) := by
  refine ⟨?_, ?_, ?_, ?_⟩
  · intro p hp
    simp only [kbase_pm_ca_update_core_status, hp, World.call]
  · intro hn
    simp only [kbase_pm_ca_update_core_status, hn]
  · intro v
    rcases hs : w.kbdev.pm_ca_current_policy with _ | p <;>
      simp [kbase_pm_ca_update_core_status, hs, World.call]
  · intro h
    rcases hs : w.kbdev.pm_ca_current_policy with _ | p
    · simp only [kbase_pm_ca_update_core_status, hs]
    · simp only [kbase_pm_ca_update_core_status, hs, World.call, h]

/-- Witness for C6: `Fixed(0x3)` active, masks `5` and `2` forwarded. -/
theorem C6_update_core_status_witness :
    (kbase_pm_ca_update_core_status (demo_env 1) (demo_world 15 15 (some 2)) 5 2).calls =
        [Event.policy_update_core_status 2 5 2] ∧
    kbase_pm_ca_update_core_status (demo_env 1) (demo_world 15 15 none) 5 2 =
        demo_world 15 15 none ∧
    (kbase_pm_ca_update_core_status (demo_env 1)
        (demo_world 15 15 (some 2)) 5 2).kbdev.pm_ca_current_policy = some 2 := by
  have h := C6_update_core_status (demo_env 1) (demo_world 15 15 (some 2)) 5 2
  have h' := C6_update_core_status (demo_env 1) (demo_world 15 15 none) 5 2
  refine ⟨?_, h'.2.1 rfl, h.2.2.2 (demo_slot_frame 1).policy_update_core_status⟩
  rw [h.1 2 rfl]
  rfl

/-! ## The slot is never left absent -/

theorem set_policy_slot (env : Env) (w : World) (q p : policy_ptr)
    (hf : slot_frame env) (hq : w.kbdev.pm_ca_current_policy = some q) :
    ∃ w', kbase_pm_ca_set_policy env (some p) w = some w' ∧
      w'.kbdev.pm_ca_current_policy = some p := by
  have h1 := hf.context_active w.kbdev
  rcases ht : (env.deref q).term with _ | ft <;>
    rcases hi : (env.deref p).init with _ | fi <;>
    simp [kbase_pm_ca_set_policy, set_policy_steps, run_steps,
      World.call, World.store_ca_current_policy, World.spin_lock_irqsave,
      World.spin_unlock_irqrestore, World.mutex_lock, World.mutex_unlock,
      h1, hq, ht, hi, hf.update_cores_state,
      hf.context_idle, hf.policy_update_core_status]

theorem init_slot (env : Env) (w0 w1 : World) (st : mali_error) (hf : slot_frame env)
    (hinit : kbase_pm_ca_init env w0 = some (st, w1)) :
    w1.kbdev.pm_ca_current_policy = some env.kbase_pm_ca_fixed_policy_ops := by
  simp only [kbase_pm_ca_init, policy_list, List.getElem?_cons_zero,
    World.store_ca_current_policy] at hinit
  rcases hi : (env.deref env.kbase_pm_ca_fixed_policy_ops).init with _ | f
  · simp [hi] at hinit
  · simp only [hi, Option.some.injEq, Prod.mk.injEq] at hinit
    rw [← hinit.2]
    simp only [World.call, hf.policy_init _ _ hi]

theorem ca_call_slot (env : Env) (w : World) (q : policy_ptr) (c : ca_call)
    (hf : slot_frame env) (hq : w.kbdev.pm_ca_current_policy = some q) :
    ∃ w', c.run env w = some w' ∧
      w'.kbdev.pm_ca_current_policy = some ((last_set_policy [c]).getD q) := by
  cases c with
  | set_policy p =>
    simpa [ca_call.run, last_set_policy] using set_policy_slot env w q p hf hq
  | update_core_status r t =>
    simp [ca_call.run, last_set_policy, kbase_pm_ca_update_core_status, hq, World.call,
      hf.policy_update_core_status]
  | get_core_mask =>
    refine ⟨_, rfl, ?_⟩
    unfold kbase_pm_ca_get_core_mask
    by_cases hi : w.kbdev.pm_instr_enabled = MALI_TRUE <;>
      simp [hi, hq, last_set_policy]
  | instr_enable =>
    simp [ca_call.run, last_set_policy, kbase_pm_ca_instr_enable, World.call,
      World.store_instr_enabled, World.spin_lock_irqsave, World.spin_unlock_irqrestore,
      hf.update_cores_state, hq]
  | instr_disable =>
    simp [ca_call.run, last_set_policy, kbase_pm_ca_instr_disable, World.call,
      World.store_instr_enabled, World.spin_lock_irqsave, World.spin_unlock_irqrestore,
      hf.update_cores_state, hq]

theorem run_calls_slot (env : Env) (hf : slot_frame env) (calls : List ca_call) :
    ∀ (w : World) (q : policy_ptr), w.kbdev.pm_ca_current_policy = some q →
      ∃ w', run_calls env calls w = some w' ∧
        w'.kbdev.pm_ca_current_policy = some ((last_set_policy calls).getD q) := by
  induction calls with
  | nil =>
    intro w q hq
    exact ⟨w, rfl, by simpa [last_set_policy] using hq⟩
  | cons c cs ih =>
    intro w q hq
    obtain ⟨w1, h1, hs1⟩ := ca_call_slot env w q c hf hq
    obtain ⟨w2, h2, hs2⟩ := ih w1 _ hs1
    refine ⟨w2, by simp [run_calls, h1, h2], ?_⟩
    rw [hs2]
    cases hl : last_set_policy cs with
    | some p => simp [last_set_policy, hl]
    | none => cases c <;> simp [last_set_policy, hl]

/-- C8: after `kbase_pm_ca_init` has returned, every finite sequence of calls to
`kbase_pm_ca_set_policy` (non-null argument), `kbase_pm_ca_update_core_status`,
`kbase_pm_ca_get_core_mask`, `kbase_pm_ca_instr_enable` and `kbase_pm_ca_instr_disable`
runs to completion, and in the state it reaches `kbase_pm_ca_get_policy` returns the
argument of the most recent `set_policy`, or the first registry entry when there was
none: the slot is never absent between calls. -/
theorem C8_slot_never_absent (env : Env) (w0 w1 : World) (st : mali_error)
    (calls : List ca_call) (hf : slot_frame env)
    (hinit : kbase_pm_ca_init env w0 = some (st, w1)) :
    (policy_list env)[0]? = some env.kbase_pm_ca_fixed_policy_ops ∧
    ∃ w2, run_calls env calls w1 = some w2 ∧
      kbase_pm_ca_get_policy w2.kbdev =
        some ((last_set_policy calls).getD env.kbase_pm_ca_fixed_policy_ops) ∧
      kbase_pm_ca_get_policy w2.kbdev ≠ none := by
  refine ⟨by simp [policy_list], ?_⟩
  obtain ⟨w2, h2, hs2⟩ :=
    run_calls_slot env hf calls w1 _ (init_slot env w0 w1 st hf hinit)
  exact ⟨w2, h2, hs2, by simp [kbase_pm_ca_get_policy, hs2]⟩

/-- Witness for C8: initialisation with `Fixed(0xF)` first in the registry, then a
status update, a change to `Fixed(0x3)`, instrumentation on, a mask query and
instrumentation off. -/
theorem C8_slot_never_absent_witness :
    ∃ w1 w2, kbase_pm_ca_init (demo_env 1) (demo_world 15 15 none) = some (MALI_ERROR_NONE, w1) ∧
      run_calls (demo_env 1)
        [ca_call.update_core_status 1 2, ca_call.set_policy 2, ca_call.instr_enable,
          ca_call.get_core_mask, ca_call.instr_disable] w1 = some w2 ∧
      kbase_pm_ca_get_policy w2.kbdev = some 2 := by
  have hinit : kbase_pm_ca_init (demo_env 1) (demo_world 15 15 none) =
      some (MALI_ERROR_NONE,
        ((demo_world 15 15 none).store_ca_current_policy (some 1)).call
          (fun d => d) (Event.policy_init 1)) := rfl
  obtain ⟨_, w2, h1, h2, _⟩ :=
    C8_slot_never_absent (demo_env 1) (demo_world 15 15 none) _ MALI_ERROR_NONE
      [ca_call.update_core_status 1 2, ca_call.set_policy 2, ca_call.instr_enable,
          ca_call.get_core_mask, ca_call.instr_disable]
      (demo_slot_frame 1) hinit
  exact ⟨_, w2, hinit, h1, h2⟩

/-! ## Instrumentation -/

/-- C9: `kbase_pm_ca_instr_enable` stores `MALI_TRUE` in the instrumentation flag and
`kbase_pm_ca_instr_disable` stores `MALI_FALSE`; each then calls
`kbase_pm_update_cores_state_nolock` once, after the store, and makes no other store or
call.  The recomputation leaving them alone, the slot and the present and debug masks
are unchanged, the flag keeps the stored value, and right after `instr_enable`
`kbase_pm_ca_get_core_mask` returns `present & debug` whatever the slot holds. -/
theorem C9_instr_toggle (env : Env) (w : World) :
    kbase_pm_ca_instr_enable env w =
      { kbdev := env.kbase_pm_update_cores_state_nolock
          { w.kbdev with pm_instr_enabled := MALI_TRUE },
        calls := w.calls ++
          [Event.store_instr_enabled MALI_TRUE, Event.kbase_pm_update_cores_state_nolock],
        power_change_lock_held := false,
        pm_lock_held := w.pm_lock_held } ∧
    kbase_pm_ca_instr_disable env w =
      { kbdev := env.kbase_pm_update_cores_state_nolock
          { w.kbdev with pm_instr_enabled := MALI_FALSE },
        calls := w.calls ++
          [Event.store_instr_enabled MALI_FALSE, Event.kbase_pm_update_cores_state_nolock],
        power_change_lock_held := false,
        pm_lock_held := w.pm_lock_held } ∧
    (recompute_frame env →
      ((kbase_pm_ca_instr_enable env w).kbdev.pm_instr_enabled = MALI_TRUE ∧
        (kbase_pm_ca_instr_enable env w).kbdev.pm_ca_current_policy =
          w.kbdev.pm_ca_current_policy ∧
        (kbase_pm_ca_instr_enable env w).kbdev.shader_present_bitmap =
          w.kbdev.shader_present_bitmap ∧
        (kbase_pm_ca_instr_enable env w).kbdev.pm_debug_core_mask =
          w.kbdev.pm_debug_core_mask) ∧
      ((kbase_pm_ca_instr_disable env w).kbdev.pm_instr_enabled = MALI_FALSE ∧
        (kbase_pm_ca_instr_disable env w).kbdev.pm_ca_current_policy =
          w.kbdev.pm_ca_current_policy ∧
        (kbase_pm_ca_instr_disable env w).kbdev.shader_present_bitmap =
          w.kbdev.shader_present_bitmap ∧
        (kbase_pm_ca_instr_disable env w).kbdev.pm_debug_core_mask =
          w.kbdev.pm_debug_core_mask) ∧
      kbase_pm_ca_get_core_mask env (kbase_pm_ca_instr_enable env w) =
        (w.kbdev.shader_present_bitmap &&& w.kbdev.pm_debug_core_mask,
          kbase_pm_ca_instr_enable env w)) := by
  refine ⟨?_, ?_, ?_⟩
  · simp [kbase_pm_ca_instr_enable, World.call, World.store_instr_enabled,
      World.spin_lock_irqsave, World.spin_unlock_irqrestore]
  · simp [kbase_pm_ca_instr_disable, World.call, World.store_instr_enabled,
      World.spin_lock_irqsave, World.spin_unlock_irqrestore]
  · intro hr
    have he : (kbase_pm_ca_instr_enable env w).kbdev =
        env.kbase_pm_update_cores_state_nolock
          { w.kbdev with pm_instr_enabled := MALI_TRUE } := rfl
    have hd : (kbase_pm_ca_instr_disable env w).kbdev =
        env.kbase_pm_update_cores_state_nolock
          { w.kbdev with pm_instr_enabled := MALI_FALSE } := rfl
    refine ⟨?_, ?_, ?_⟩
    · rw [he, hr.instr, hr.slot, hr.present, hr.debug]
      exact ⟨rfl, rfl, rfl, rfl⟩
    · rw [hd, hr.instr, hr.slot, hr.present, hr.debug]
      exact ⟨rfl, rfl, rfl, rfl⟩
    · have hi : (kbase_pm_ca_instr_enable env w).kbdev.pm_instr_enabled = MALI_TRUE := by
        rw [he, hr.instr]
      have hp : (kbase_pm_ca_instr_enable env w).kbdev.shader_present_bitmap =
          w.kbdev.shader_present_bitmap := by rw [he, hr.present]
      have hm : (kbase_pm_ca_instr_enable env w).kbdev.pm_debug_core_mask =
          w.kbdev.pm_debug_core_mask := by rw [he, hr.debug]
      unfold kbase_pm_ca_get_core_mask
      rw [if_pos hi, hp, hm]

theorem demo_recompute_frame (first : policy_ptr) : recompute_frame (demo_env first) where
  slot := fun _ => rfl
  instr := fun _ => rfl
  present := fun _ => rfl
  debug := fun _ => rfl

/-- Witness for C9: instrumentation switched on with `Fixed(0x3)` active on a device
with present cores `0xF` and debug mask `0x6`; the mask becomes `0x6`. -/
theorem C9_instr_toggle_witness :
    (kbase_pm_ca_get_core_mask (demo_env 1) (demo_world 15 6 (some 2))).1 = 2 ∧
    (kbase_pm_ca_get_core_mask (demo_env 1)
      (kbase_pm_ca_instr_enable (demo_env 1) (demo_world 15 6 (some 2)))).1 = 6 ∧
    (kbase_pm_ca_instr_enable (demo_env 1)
      (demo_world 15 6 (some 2))).kbdev.pm_ca_current_policy = some 2 := by
  have h := (C9_instr_toggle (demo_env 1) (demo_world 15 6 (some 2))).2.2
    (demo_recompute_frame 1)
  refine ⟨by decide, ?_, h.1.2.1⟩
  rw [h.2.2]
  decide

/-! ## Attribute queries -/

theorem to_mali_bool_ne_zero_iff (bits : Nat) (x : Int) (hx : |x| < 2 ^ bits) :
    to_mali_bool bits x ≠ 0 ↔ x ≠ 0 := by
  unfold to_mali_bool
  have hpos : (0 : Int) < 2 ^ bits := by positivity
  have hnn : 0 ≤ x % 2 ^ bits := Int.emod_nonneg _ (ne_of_gt hpos)
  constructor
  · intro h hx0
    apply h
    simp [hx0]
  · intro h h0
    apply h
    have hz : x % 2 ^ bits = 0 := le_antisymm (Int.toNat_eq_zero.mp h0) hnn
    exact Int.eq_zero_of_abs_lt_dvd (Int.dvd_of_emod_eq_zero hz) hx

/-- C10: for an attribute index below `KBASEP_JS_CTX_ATTR_COUNT` (the counts fitting
the type `mali_bool`), `kbasep_js_ctx_attr_count_on_runpool` returns the stored run-pool
count, `kbasep_js_ctx_attr_is_attr_on_runpool` returns a non-zero value exactly when
that count is non-zero, `kbasep_js_ctx_attr_is_attr_on_ctx` returns a non-zero value
exactly when the context's count is non-zero, and each leaves the device, respectively
the context, as it was. -/
theorem C10_attr_queries (KBASEP_JS_CTX_ATTR_COUNT bits : Nat) (kbdev : kbase_device)
    (kctx : kbase_context) (attr : Nat)
    (hattr : attr < KBASEP_JS_CTX_ATTR_COUNT)
    (hrun : |kbdev.js_data_runpool_irq_ctx_attr_ref_count attr| < 2 ^ bits)
    (hctx : |kctx.ctx_attr_ref_count attr| < 2 ^ bits) :
    kbasep_js_ctx_attr_count_on_runpool KBASEP_JS_CTX_ATTR_COUNT kbdev attr =
      some (kbdev.js_data_runpool_irq_ctx_attr_ref_count attr, kbdev) ∧
    (∃ b, kbasep_js_ctx_attr_is_attr_on_runpool KBASEP_JS_CTX_ATTR_COUNT bits kbdev attr =
        some (b, kbdev) ∧
      (b ≠ 0 ↔ kbdev.js_data_runpool_irq_ctx_attr_ref_count attr ≠ 0)) ∧
    (∃ b, kbasep_js_ctx_attr_is_attr_on_ctx KBASEP_JS_CTX_ATTR_COUNT bits kctx attr =
        some (b, kctx) ∧
      (b ≠ 0 ↔ kctx.ctx_attr_ref_count attr ≠ 0)) := by
  refine ⟨?_, ⟨_, ?_, to_mali_bool_ne_zero_iff bits _ hrun⟩,
    ⟨_, ?_, to_mali_bool_ne_zero_iff bits _ hctx⟩⟩
  · simp only [kbasep_js_ctx_attr_count_on_runpool, hattr, if_true]
  · simp only [kbasep_js_ctx_attr_is_attr_on_runpool, kbasep_js_ctx_attr_count_on_runpool,
      hattr, if_true, Option.map_some']
  · simp only [kbasep_js_ctx_attr_is_attr_on_ctx, hattr, if_true]

/-- Witness for C10: three attributes, a 32-bit `mali_bool`, run-pool count 2 and
context count 0 for attr 1. -/
theorem C10_attr_queries_witness :
    kbasep_js_ctx_attr_count_on_runpool 3 (demo_js_device (fun a => if a = 1 then 2 else 0)) 1 =
      some (2, demo_js_device (fun a => if a = 1 then 2 else 0)) ∧
    (kbasep_js_ctx_attr_is_attr_on_runpool 3 32
      (demo_js_device (fun a => if a = 1 then 2 else 0)) 1).map (fun r => r.1) = some 2 ∧
    (kbasep_js_ctx_attr_is_attr_on_ctx 3 32 ⟨fun _ => 0, false⟩ 1).map (fun r => r.1) =
      some 0 := by
  have h := C10_attr_queries 3 32 (demo_js_device (fun a => if a = 1 then 2 else 0))
    ⟨fun _ => 0, false⟩ 1 (by decide) (by decide) (by decide)
  exact ⟨h.1, by decide, by decide⟩

/-! ## Release of attributes (tracker modelled from the specification) -/

theorem single_attr_context_count (n attr : Nat) (h : attr < n) (a : Nat) :
    (single_attr_context n attr).ctx_attr_ref_count a = if a = attr then 1 else 0 := by
  by_cases ha : a = attr
  · subst ha
    simp [single_attr_context, kbasep_js_ctx_attr_set_initial_attrs, h]
  · simp [single_attr_context, kbasep_js_ctx_attr_set_initial_attrs, ha]

theorem retain_single (n attr : Nat) (h : attr < n) (k : Int) :
    kbasep_js_ctx_attr_runpool_retain_ctx n
        (demo_js_device (fun a => if a = attr then k else 0)) (single_attr_context n attr) =
      some (demo_js_device (fun a => if a = attr then k + 1 else 0),
        single_attr_context n attr) := by
  have hs : (single_attr_context n attr).is_scheduled = true := rfl
  simp only [kbasep_js_ctx_attr_runpool_retain_ctx, hs, if_true, demo_js_device,
    single_attr_context_count n attr h, Option.some.injEq, Prod.mk.injEq, and_true,
    kbase_device.mk.injEq, true_and]
  funext a
  by_cases ha : a = attr
  · subst ha
    simp [h]
  · simp [ha]

theorem release_single (n attr : Nat) (h : attr < n) (k : Int) (hk : 0 < k) :
    kbasep_js_ctx_attr_runpool_release_ctx n
        (demo_js_device (fun a => if a = attr then k else 0)) (single_attr_context n attr) =
      some (decide (k = 1), demo_js_device (fun a => if a = attr then k - 1 else 0),
        single_attr_context n attr) := by
  have hs : (single_attr_context n attr).is_scheduled = true := rfl
  have hall : (List.range n).all (fun a =>
      decide ((single_attr_context n attr).ctx_attr_ref_count a ≠ 0 →
        0 < (demo_js_device (fun a => if a = attr then k else 0)).js_data_runpool_irq_ctx_attr_ref_count
          a)) = true := by
    simp only [List.all_eq_true, List.mem_range, decide_eq_true_eq,
      single_attr_context_count n attr h, demo_js_device]
    intro a _ hne
    by_cases ha : a = attr
    · simpa [ha] using hk
    · simp [ha] at hne
  have hany : (List.range n).any (fun a =>
      decide ((single_attr_context n attr).ctx_attr_ref_count a ≠ 0) &&
      decide ((demo_js_device (fun a => if a = attr then k else 0)).js_data_runpool_irq_ctx_attr_ref_count
        a ≠ 0) &&
      decide ((demo_js_device (fun a => if a = attr then k else 0)).js_data_runpool_irq_ctx_attr_ref_count
        a - 1 = 0)) = decide (k = 1) := by
    rw [Bool.eq_iff_iff]
    simp only [List.any_eq_true, List.mem_range, Bool.and_eq_true, decide_eq_true_eq,
      single_attr_context_count n attr h, demo_js_device]
    constructor
    · rintro ⟨a, _, ⟨hc, _⟩, h1⟩
      by_cases ha : a = attr
      · simp only [ha, if_true] at h1
        omega
      · simp [ha] at hc
    · intro h1
      refine ⟨attr, h, ⟨by simp, by simp; omega⟩, by simp; omega⟩
  unfold kbasep_js_ctx_attr_runpool_release_ctx
  rw [if_pos ⟨hs, hall⟩, hany]
  simp only [Option.some.injEq, Prod.mk.injEq, and_true, true_and, demo_js_device,
    kbase_device.mk.injEq, single_attr_context_count n attr h]
  funext a
  by_cases ha : a = attr
  · subst ha
    simp [h]
  · simp [ha]

theorem release_ctx_changed_iff (n : Nat) (kbdev kbdev' : kbase_device)
    (kctx kctx' : kbase_context) (changed : Bool)
    (hr : kbasep_js_ctx_attr_runpool_release_ctx n kbdev kctx = some (changed, kbdev', kctx')) :
    changed = true ↔ ∃ a, a < n ∧ kbdev.js_data_runpool_irq_ctx_attr_ref_count a ≠ 0 ∧
      kbdev'.js_data_runpool_irq_ctx_attr_ref_count a = 0 := by
  unfold kbasep_js_ctx_attr_runpool_release_ctx at hr
  split_ifs at hr with hc
  simp only [Option.some.injEq, Prod.mk.injEq] at hr
  obtain ⟨h1, h2, _⟩ := hr
  subst h1 h2
  simp only [List.any_eq_true, List.mem_range, Bool.and_eq_true, decide_eq_true_eq]
  constructor
  · rintro ⟨a, ha, ⟨hc1, hc2⟩, hc3⟩
    exact ⟨a, ha, hc2, by simp [ha, hc1, hc3]⟩
  · rintro ⟨a, ha, h0, h1⟩
    by_cases hk : kctx.ctx_attr_ref_count a ≠ 0
    · refine ⟨a, ha, ⟨hk, h0⟩, ?_⟩
      simpa [ha, hk] using h1
    · simp only [ha, hk, and_false, if_false] at h1
      exact absurd h1 h0

theorem release_atom_changed_iff (n : Nat) (kbdev kbdev' : kbase_device)
    (kctx kctx' : kbase_context) (rs : kbasep_js_atom_retained_state) (changed : Bool)
    (hr : kbasep_js_ctx_attr_ctx_release_atom n kbdev kctx rs = some (changed, kbdev', kctx')) :
    changed = true ↔ ∃ a, a < n ∧ kbdev.js_data_runpool_irq_ctx_attr_ref_count a ≠ 0 ∧
      kbdev'.js_data_runpool_irq_ctx_attr_ref_count a = 0 := by
  unfold kbasep_js_ctx_attr_ctx_release_atom at hr
  split_ifs at hr with hv hc
  · simp only [Option.some.injEq, Prod.mk.injEq] at hr
    obtain ⟨h1, h2, _⟩ := hr
    subst h1 h2
    constructor
    · intro h
      cases h
    · rintro ⟨a, _, h0, h1⟩
      exact absurd h1 h0
  · simp only [Option.some.injEq, Prod.mk.injEq] at hr
    obtain ⟨h1, h2, _⟩ := hr
    subst h1 h2
    simp only [Bool.and_eq_true, List.any_eq_true, List.mem_range, decide_eq_true_eq]
    constructor
    · rintro ⟨hsch, a, ha, ⟨hc1, hc2⟩, hc3⟩
      exact ⟨a, ha, hc2, by simp [ha, hc1, hc3, hsch]⟩
    · rintro ⟨a, ha, h0, h1⟩
      by_cases hk : kctx.is_scheduled = true ∧ rs.retained a = true
      · refine ⟨hk.1, a, ha, ⟨hk.2, h0⟩, ?_⟩
        simpa [ha, hk.1, hk.2] using h1
      · have hk' : ¬ (kctx.is_scheduled = true ∧ a < n ∧ rs.retained a = true) :=
          fun hh => hk ⟨hh.1, hh.2.2⟩
        simp only [hk', if_false] at h1
        exact absurd h1 h0

/-- C7 (on the tracker as the specification describes it): whenever
`kbasep_js_ctx_attr_runpool_release_ctx` or `kbasep_js_ctx_attr_ctx_release_atom`
returns, its result is true exactly when the run-pool count of some attribute was
nonzero before the call and is zero after it.  For an attribute `attr`: a context created
with that attribute alone has context count 1; scheduling in two such contexts takes
the run-pool count from 0 to 1 to 2; releasing the first returns false and leaves 1,
releasing the second returns true and leaves 0. -/
theorem C7_release_reports_transition (n attr : Nat) (hattr : attr < n) :
    (∀ (kbdev kbdev' : kbase_device) (kctx kctx' : kbase_context) (changed : Bool),
      kbasep_js_ctx_attr_runpool_release_ctx n kbdev kctx = some (changed, kbdev', kctx') →
      (changed = true ↔ ∃ a, a < n ∧ kbdev.js_data_runpool_irq_ctx_attr_ref_count a ≠ 0 ∧
        kbdev'.js_data_runpool_irq_ctx_attr_ref_count a = 0)) ∧
    (∀ (kbdev kbdev' : kbase_device) (kctx kctx' : kbase_context)
        (rs : kbasep_js_atom_retained_state) (changed : Bool),
      kbasep_js_ctx_attr_ctx_release_atom n kbdev kctx rs = some (changed, kbdev', kctx') →
      (changed = true ↔ ∃ a, a < n ∧ kbdev.js_data_runpool_irq_ctx_attr_ref_count a ≠ 0 ∧
        kbdev'.js_data_runpool_irq_ctx_attr_ref_count a = 0)) ∧
    (single_attr_context n attr).ctx_attr_ref_count attr = 1 ∧
    kbasep_js_ctx_attr_runpool_retain_ctx n (demo_js_device (fun _ => 0))
        (single_attr_context n attr) =
      some (demo_js_device (fun a => if a = attr then 1 else 0), single_attr_context n attr) ∧
    kbasep_js_ctx_attr_runpool_retain_ctx n (demo_js_device (fun a => if a = attr then 1 else 0))
        (single_attr_context n attr) =
      some (demo_js_device (fun a => if a = attr then 2 else 0), single_attr_context n attr) ∧
    kbasep_js_ctx_attr_runpool_release_ctx n
        (demo_js_device (fun a => if a = attr then 2 else 0)) (single_attr_context n attr) =
      some (false, demo_js_device (fun a => if a = attr then 1 else 0),
        single_attr_context n attr) ∧
    kbasep_js_ctx_attr_runpool_release_ctx n
        (demo_js_device (fun a => if a = attr then 1 else 0)) (single_attr_context n attr) =
      some (true, demo_js_device (fun _ => 0), single_attr_context n attr) := by
  have hzero : (fun _ : Nat => (0 : Int)) = fun a => if a = attr then 0 else 0 := by
    funext a
    simp
  refine ⟨fun kbdev kbdev' kctx kctx' changed hr =>
      release_ctx_changed_iff n kbdev kbdev' kctx kctx' changed hr,
    fun kbdev kbdev' kctx kctx' rs changed hr =>
      release_atom_changed_iff n kbdev kbdev' kctx kctx' rs changed hr, ?_, ?_, ?_, ?_, ?_⟩
  · simp [single_attr_context_count n attr hattr]
  · rw [hzero]
    exact retain_single n attr hattr 0
  · exact retain_single n attr hattr 1
  · exact release_single n attr hattr 2 (by decide)
  · have h := release_single n attr hattr 1 (by decide)
    rw [hzero]
    simpa using h

/-- Witness for C7: three attributes, attribute 0; the two releases of the scenario, and
the release of an atom that held the last reference of attribute 0 on a scheduled
context. -/
theorem C7_release_reports_transition_witness :
    (kbasep_js_ctx_attr_runpool_release_ctx 3
        (demo_js_device (fun a => if a = 0 then 2 else 0)) (single_attr_context 3 0)).map
      (fun r => (r.1, r.2.1.js_data_runpool_irq_ctx_attr_ref_count 0)) = some (false, 1) ∧
    (kbasep_js_ctx_attr_runpool_release_ctx 3
        (demo_js_device (fun a => if a = 0 then 1 else 0)) (single_attr_context 3 0)).map
      (fun r => (r.1, r.2.1.js_data_runpool_irq_ctx_attr_ref_count 0)) = some (true, 0) ∧
    (kbasep_js_ctx_attr_ctx_release_atom 3
        (demo_js_device (fun a => if a = 0 then 1 else 0)) (single_attr_context 3 0)
        ⟨true, fun a => a == 0⟩).map
      (fun r => (r.1, r.2.1.js_data_runpool_irq_ctx_attr_ref_count 0)) = some (true, 0) := by
  have h := C7_release_reports_transition 3 0 (by decide)
  refine ⟨?_, ?_, by decide⟩
  · rw [h.2.2.2.2.2.1]
    rfl
  · rw [h.2.2.2.2.2.2]
    rfl

end KBase
